import Mathlib

/-!
Verification of the real-time change-notification relay of this repository.

The development shallowly embeds, in Lean, the client-side SSE reconnection
controller (`SSEClient` in `apps/frontend/src/lib`), the consuming hook
(`useEventSSE`), the PostgreSQL notification trigger functions
(`notify_event_changes`, `notify_participant_changes` in
`migrations/001_initial_schema.sql`), and — modelled from the specification,
since its server source is not part of the frontend/migration tree — the
in-process Broadcast Hub.  Stateful TypeScript methods become explicit
state-passing functions; handler callbacks are represented by opaque numeric
identifiers so that "which handler fired, how often, in what order" is the
observable; `JSON.parse` success/failure is modelled by an executable JSON
syntax validator.
-/

set_option autoImplicit false

namespace Relay

/-! ## A model of `JSON.parse` success/failure

`SSEClient.handleMessage` wraps `JSON.parse(event.data)` in a try/catch; the
only fact about the body that the control flow depends on is whether parsing
throws.  We model that with an executable JSON syntax validator over the raw
character list (fuelled recursive descent; the fuel `length + 1` dominates the
possible nesting depth, every recursive step having consumed at least one
character). -/

def isWsChar (c : Char) : Bool :=
  c = ' ' || c = '\n' || c = '\t' || c = '\r'

def skipWs : List Char → List Char
  | [] => []
  | c :: cs => if isWsChar c then skipWs cs else c :: cs

def isDigitChar (c : Char) : Bool :=
  '0' ≤ c && c ≤ '9'

/-- Split a leading run of decimal digits off the input. -/
def takeDigits : List Char → List Char × List Char
  | [] => ([], [])
  | c :: cs =>
    if isDigitChar c then
      let p := takeDigits cs
      (c :: p.1, p.2)
    else ([], c :: cs)

/-- Consume the literal `p` from the front of `l`, returning the rest. -/
def dropLit : List Char → List Char → Option (List Char)
  | [], l => some l
  | _ :: _, [] => none
  | p :: ps, c :: cs => if p = c then dropLit ps cs else none

/-- Consume the remainder of a JSON string, the opening quote already read. -/
def stringRest : List Char → Option (List Char)
  | [] => none
  | '"' :: cs => some cs
  | '\\' :: _ :: cs => stringRest cs
  | '\\' :: [] => none
  | _ :: cs => stringRest cs

/-- Consume an optional fraction part (`.` digits). -/
def fracPart : List Char → Option (List Char)
  | '.' :: cs =>
    match takeDigits cs with
    | ([], _) => none
    | (_ :: _, rest) => some rest
  | l => some l

/-- Consume an optional exponent part (`e`/`E`, optional sign, digits). -/
def expPart : List Char → Option (List Char)
  | c :: cs =>
    if c = 'e' || c = 'E' then
      let body :=
        match cs with
        | s :: cs2 => if s = '+' || s = '-' then cs2 else s :: cs2
        | [] => []
      match takeDigits body with
      | ([], _) => none
      | (_ :: _, rest) => some rest
    else some (c :: cs)
  | [] => some []

/-- Consume a JSON number (optional minus, digits, fraction, exponent). -/
def numberLit (l : List Char) : Option (List Char) :=
  let body := match l with
    | '-' :: cs => cs
    | _ => l
  match takeDigits body with
  | ([], _) => none
  | (_ :: _, rest) =>
    match fracPart rest with
    | none => none
    | some rest2 => expPart rest2

mutual

/-- Consume one JSON value. -/
def jsonValue : Nat → List Char → Option (List Char)
  | 0, _ => none
  | fuel + 1, l =>
    match skipWs l with
    | [] => none
    | '"' :: cs => stringRest cs
    | '{' :: cs =>
      (match skipWs cs with
       | '}' :: cs2 => some cs2
       | cs2 => jsonMembers fuel cs2)
    | '[' :: cs =>
      (match skipWs cs with
       | ']' :: cs2 => some cs2
       | cs2 => jsonElems fuel cs2)
    | 't' :: cs => dropLit ['r', 'u', 'e'] cs
    | 'f' :: cs => dropLit ['a', 'l', 's', 'e'] cs
    | 'n' :: cs => dropLit ['u', 'l', 'l'] cs
    | l2 => numberLit l2

/-- Consume the members of a JSON object after `{`, up to and including `}`. -/
def jsonMembers : Nat → List Char → Option (List Char)
  | 0, _ => none
  | fuel + 1, l =>
    match skipWs l with
    | '"' :: cs =>
      (match stringRest cs with
       | none => none
       | some cs2 =>
         match skipWs cs2 with
         | ':' :: cs3 =>
           (match jsonValue fuel cs3 with
            | none => none
            | some cs4 =>
              match skipWs cs4 with
              | ',' :: cs5 => jsonMembers fuel cs5
              | '}' :: cs5 => some cs5
              | _ => none)
         | _ => none)
    | _ => none

/-- Consume the elements of a JSON array after `[`, up to and including `]`. -/
def jsonElems : Nat → List Char → Option (List Char)
  | 0, _ => none
  | fuel + 1, l =>
    match jsonValue fuel l with
    | none => none
    | some cs =>
      match skipWs cs with
      | ',' :: cs2 => jsonElems fuel cs2
      | ']' :: cs2 => some cs2
      | _ => none

end

/-- `isValidJson s` models `JSON.parse(s)` succeeding (not throwing). -/
def isValidJson (s : String) : Bool :=
  let l := s.toList
  match jsonValue (l.length + 1) l with
  | some rest => skipWs rest = []
  | none => false

/-! ## The listener registry

`SSEClient.listeners` is a `Map<string, Set<callback>>`.  JavaScript `Map`
iterates keys in insertion order and `Set` iterates elements in insertion
order, with `Set.add` a no-op on an element already present; an association
list of event type to handler-id list, appending new keys and new handlers at
the end and skipping handlers already present, has exactly those semantics. -/

abbrev Listeners := List (String × List Nat)

/-- `this.listeners.get(t)` followed by iteration (absent key = no handlers). -/
def getSet : Listeners → String → List Nat
  | [], _ => []
  | (t', hs) :: rest, t => if t' = t then hs else getSet rest t

/-- The registry part of `on(t, h)`: create the set if absent, then `add`. -/
def addListener : Listeners → String → Nat → Listeners
  | [], t, h => [(t, [h])]
  | (t', hs) :: rest, t, h =>
    if t' = t then (t', if h ∈ hs then hs else hs ++ [h]) :: rest
    else (t', hs) :: addListener rest t h

/-- A registry as produced by a sequence of `on(type, handler)` calls. -/
def buildListeners (regs : List (String × Nat)) : Listeners :=
  regs.foldl (fun L r => addListener L r.1 r.2) []

/-! ## Message dispatch (`SSEClient.handleMessage`)

The method parses `event.data`; on failure it logs and returns (no listener
runs, no state is touched).  On success it builds the `SSEEvent` with
`type = event.type || 'message'`, runs every listener registered under that
type, and — when the type is not the wildcard `'message'` — additionally runs
every listener registered under `'message'`.  The returned list is the
sequence of handler invocations, in order. -/

structure MessageEvent where
  type : String
  data : String
  lastEventId : String
  deriving DecidableEq, Repr

/-- `event.type || 'message'` (the empty string is falsy in JavaScript). -/
def effectiveType (t : String) : String :=
  if t = "" then "message" else t

def handleMessage (L : Listeners) (ev : MessageEvent) : List Nat :=
  if isValidJson ev.data then
    let t := effectiveType ev.type
    getSet L t ++ (if t = "message" then [] else getSet L "message")
  else []

/-! ## Client controller state (`SSEClient`)

Mutable fields of the class: `eventSource` (here the flag `hasES`, transport
handle non-null), `retryCount`, `listeners`, and `nativeHandlers` (here the
list of event types with a native `EventSource` listener attached, `Map` keys
in insertion order).  The `url` is irrelevant to the claims. -/

structure SSEState where
  hasES : Bool
  retryCount : Nat
  listeners : Listeners
  nativeTypes : List String
  deriving DecidableEq, Repr

/-- Constructor options, each field optional (absent = not passed). -/
structure SSEClientOptions where
  reconnect : Option Bool
  reconnectInterval : Option Nat
  maxRetries : Option Nat
  deriving DecidableEq, Repr

/-- Options after the constructor's `{ reconnect: true, reconnectInterval:
3000, maxRetries: 5, ...options }` merge. -/
structure ResolvedOptions where
  reconnect : Bool
  reconnectInterval : Nat
  maxRetries : Nat
  deriving DecidableEq, Repr

def resolveOptions (o : SSEClientOptions) : ResolvedOptions where
  reconnect := o.reconnect.getD true
  reconnectInterval := o.reconnectInterval.getD 3000
  maxRetries := o.maxRetries.getD 5

/-- The retry ceiling actually compared against: `this.options.maxRetries || 5`
— JavaScript `||` falls through on the falsy number `0`. -/
def effectiveMaxRetries (o : ResolvedOptions) : Nat :=
  if o.maxRetries = 0 then 5 else o.maxRetries

/-- `addNativeListener(t)`: no-op unless connected and not yet attached. -/
def addNativeListener (s : SSEState) (t : String) : SSEState :=
  if !s.hasES || t ∈ s.nativeTypes then s
  else { s with nativeTypes := s.nativeTypes ++ [t] }

/-- `attachCustomListeners()`: attach a native listener for every registered
non-wildcard event type (iterating the listener map in insertion order). -/
def attachCustomListeners (s : SSEState) : SSEState :=
  s.listeners.foldl
    (fun acc p => if p.1 ≠ "message" then addNativeListener acc p.1 else acc) s

/-- `connect()`: early-return when a transport already exists; otherwise
create the `EventSource` (install `onopen`/`onerror`/`onmessage`) and attach
the custom listeners.  The open callback fires asynchronously later and is
modelled separately (`openCallback`). -/
def connect (s : SSEState) : SSEState :=
  if s.hasES then s
  else attachCustomListeners { s with hasES := true }

/-- The `onopen` callback: `this.retryCount = 0`. -/
def openCallback (s : SSEState) : SSEState :=
  { s with retryCount := 0 }

/-- `disconnect()`: close and null the transport and clear the native-handler
map; nothing else is touched (in particular `retryCount` is kept). -/
def disconnect (s : SSEState) : SSEState :=
  if s.hasES then { s with hasES := false, nativeTypes := [] } else s

/-- `isConnected()`: non-null transport whose `readyState` is `OPEN`; the
ready state of the underlying transport is an environment input. -/
def isConnected (s : SSEState) (readyOpen : Bool) : Bool :=
  s.hasES && readyOpen

/-- `on(t, h)`: registry insertion, plus a native listener when connected and
`t` is not the wildcard. -/
def onEvent (s : SSEState) (t : String) (h : Nat) : SSEState :=
  if s.hasES ∧ t ≠ "message" then
    addNativeListener { s with listeners := addListener s.listeners t h } t
  else { s with listeners := addListener s.listeners t h }

/-- `handleError()`: tear down, then — if reconnect is on and retries remain —
increment the counter and schedule `connect()`.  The returned flag records
whether a reconnection attempt was scheduled. -/
def handleError (o : ResolvedOptions) (s : SSEState) : SSEState × Bool :=
  if o.reconnect ∧ (disconnect s).retryCount < effectiveMaxRetries o then
    ({ disconnect s with retryCount := (disconnect s).retryCount + 1 }, true)
  else (disconnect s, false)

/-- `handleMessage` leaves every field of the client untouched (the try/catch
spans the whole body); it only produces handler invocations. -/
def handleMessageState (s : SSEState) (ev : MessageEvent) :
    SSEState × List Nat :=
  (s, handleMessage s.listeners ev)

/-- One transport-error cycle: the error fires, and if a reconnection was
scheduled, the timer later fires and runs `connect()`. -/
def errorCycle (o : ResolvedOptions) (s : SSEState) : SSEState × Bool :=
  (if (handleError o s).2 then connect (handleError o s).1
   else (handleError o s).1,
   (handleError o s).2)

/-- `n` consecutive transport-error cycles (no intervening successful open);
returns the final state and how many reconnection attempts were scheduled. -/
def runErrorCycles (o : ResolvedOptions) (s : SSEState) :
    Nat → SSEState × Nat
  | 0 => (s, 0)
  | n + 1 =>
    ((errorCycle o (runErrorCycles o s n).1).1,
     (runErrorCycles o s n).2 +
       if (errorCycle o (runErrorCycles o s n).1).2 then 1 else 0)

/-! ## Datastore notification triggers (`001_initial_schema.sql`)

`notify_event_changes` / `notify_participant_changes` build a JSON payload
with `json_build_object` and `pg_notify` it on their channel.  A payload is
modelled as the ordered list of key/value pairs handed to
`json_build_object`; values keep just enough structure to be distinguished. -/

inductive TgOp
  | insertOp
  | updateOp
  | deleteOp
  deriving DecidableEq, Repr

def TgOp.tag : TgOp → String
  | .insertOp => "INSERT"
  | .updateOp => "UPDATE"
  | .deleteOp => "DELETE"

/-- A JSON value appearing in a trigger payload. -/
inductive PgVal
  | text (s : String)
  | rowJson (fields : List (String × String))
  | time (t : Nat)
  deriving DecidableEq, Repr

/-- A table row: its primary id and the remaining columns
(`row_to_json` output is the id column together with the rest). -/
structure PgRow where
  id : String
  rest : List (String × String)
  deriving DecidableEq, Repr

def rowToJson (r : PgRow) : List (String × String) :=
  ("id", r.id) :: r.rest

/-- A participants row additionally carries its owning `event_id` column. -/
structure PgParticipantRow where
  id : String
  event_id : String
  rest : List (String × String)
  deriving DecidableEq, Repr

def participantRowToJson (r : PgParticipantRow) : List (String × String) :=
  ("id", r.id) :: ("event_id", r.event_id) :: r.rest

/-- `notify_event_changes`: the `(channel, payload)` it passes to
`pg_notify`.  `old` is the `OLD` row (used on `DELETE`), `new` the `NEW`
row, `now` the `NOW()` timestamp, `tgTable` the `TG_TABLE_NAME`. -/
def notify_event_changes (op : TgOp) (tgTable : String)
    (old new : PgRow) (now : Nat) : String × List (String × PgVal) :=
  if op = .deleteOp then
    ("event_changes",
      [("operation", .text op.tag), ("table", .text tgTable),
       ("id", .text old.id), ("timestamp", .time now)])
  else
    ("event_changes",
      [("operation", .text op.tag), ("table", .text tgTable),
       ("id", .text new.id), ("data", .rowJson (rowToJson new)),
       ("timestamp", .time now)])

/-- `notify_participant_changes`: as above, with the extra `event_id` key. -/
def notify_participant_changes (op : TgOp) (tgTable : String)
    (old new : PgParticipantRow) (now : Nat) :
    String × List (String × PgVal) :=
  if op = .deleteOp then
    ("participant_changes",
      [("operation", .text op.tag), ("table", .text tgTable),
       ("id", .text old.id), ("event_id", .text old.event_id),
       ("timestamp", .time now)])
  else
    ("participant_changes",
      [("operation", .text op.tag), ("table", .text tgTable),
       ("id", .text new.id), ("event_id", .text new.event_id),
       ("data", .rowJson (participantRowToJson new)),
       ("timestamp", .time now)])

def payloadKeys (p : List (String × PgVal)) : List String :=
  p.map Prod.fst

/-! ## The consuming hook (`useEventSSE` and the query-key factory)

The hook creates an `SSEClient`, registers a single wildcard handler that
invalidates `queryKeys.events.all` and `queryKeys.participants.all`, and
connects.  TanStack Query's `invalidateQueries({queryKey})` marks stale every
cached query whose key extends the given key prefix. -/

def queryKeysEventsAll : List String := ["events"]

def queryKeysParticipantsAll : List String := ["participants"]

/-- TanStack prefix matching of a filter key against a cached query key. -/
def keyExtends : List String → List String → Bool
  | [], _ => true
  | _ :: _, [] => false
  | a :: as, b :: bs => a = b && keyExtends as bs

structure CacheEntry where
  key : List String
  stale : Bool
  deriving DecidableEq, Repr

abbrev QueryCache := List CacheEntry

def invalidateQueries (c : QueryCache) (filterKey : List String) :
    QueryCache :=
  c.map (fun e => if keyExtends filterKey e.key then { e with stale := true }
                  else e)

/-- The body of the hook's `'message'` handler: invalidate every events query
and every participants query (full resync, no incremental patching). -/
def hookOnMessage (c : QueryCache) : QueryCache :=
  invalidateQueries (invalidateQueries c queryKeysEventsAll)
    queryKeysParticipantsAll

/-- The handler id under which the hook's callback is registered. -/
def hookHandlerId : Nat := 0

/-- The client state `useEventSSE` sets up: fresh client, one wildcard
registration, then `connect()`. -/
def hookClientState : SSEState :=
  connect (onEvent (SSEState.mk false 0 [] []) "message" hookHandlerId)

/-! ## The Broadcast Hub

Modelled from the spec: the server-side Broadcast Hub source is not in the
repository tree (only the datastore triggers and the client are); §4.2 of the
specification defines it.  `Register` allocates a bounded queue (fixed
capacity) under a fresh handle; `Unregister` removes it (idempotent);
`Publish` appends the event to every registered subscriber's queue in FIFO
order, applying to any full queue the default overflow policy (b): drop the
subscriber entirely. -/

structure ChangeEvent where
  operation : String
  entityKind : String
  entityId : String
  parentId : Option String
  snapshot : Option (List (String × String))
  occurredAt : Nat
  deriving DecidableEq, Repr

structure Hub where
  capacity : Nat
  registry : List (Nat × List ChangeEvent)
  nextHandle : Nat
  deriving DecidableEq, Repr

/-- Modelled from the spec: `Register()` allocates an empty bounded queue
under a fresh handle and returns the handle. -/
def Hub.register (h : Hub) : Hub × Nat :=
  ({ h with registry := h.registry ++ [(h.nextHandle, [])],
            nextHandle := h.nextHandle + 1 },
   h.nextHandle)

/-- Modelled from the spec: `Unregister(k)` removes the subscriber's queue;
idempotent. -/
def Hub.unregister (h : Hub) (k : Nat) : Hub :=
  { h with registry := h.registry.filter (fun p => p.1 ≠ k) }

/-- Modelled from the spec: `Publish(e)` enqueues `e` for every subscriber
with spare capacity and evicts (drops) every subscriber whose queue is full
(default overflow policy (b)). -/
def Hub.publish (h : Hub) (e : ChangeEvent) : Hub :=
  { h with registry :=
      (h.registry.filterMap
        (fun p => if p.2.length < h.capacity then some (p.1, p.2 ++ [e])
                  else none)) }

def Hub.publishAll (h : Hub) (es : List ChangeEvent) : Hub :=
  es.foldl Hub.publish h

/-- The pending FIFO queue of subscriber `k`, when registered. -/
def Hub.getQueue (h : Hub) (k : Nat) : Option (List ChangeEvent) :=
  (h.registry.find? (fun p => p.1 = k)).map Prod.snd

/-! ## Registry lemmas -/

theorem getSet_addListener_same (L : Listeners) (t : String) (h : Nat) :
    getSet (addListener L t h) t =
      if h ∈ getSet L t then getSet L t else getSet L t ++ [h] := by
  induction L with
  | nil => simp [addListener, getSet]
  | cons p rest ih =>
    obtain ⟨t', hs⟩ := p
    by_cases ht : t' = t
    · subst ht
      simp [addListener, getSet]
    · simp [addListener, getSet, ht, ih]

theorem getSet_addListener_other (L : Listeners) (t u : String) (h : Nat)
    (hne : u ≠ t) : getSet (addListener L t h) u = getSet L u := by
  induction L with
  | nil => simp [addListener, getSet, Ne.symm hne]
  | cons p rest ih =>
    obtain ⟨t', hs⟩ := p
    by_cases ht : t' = t
    · subst ht
      simp [addListener, getSet, Ne.symm hne]
    · simp [addListener, getSet, ht, ih]

theorem getSet_addListener_nodup (L : Listeners) (t u : String) (h : Nat)
    (hn : ∀ v, (getSet L v).Nodup) : (getSet (addListener L t h) u).Nodup := by
  by_cases hu : u = t
  · subst hu
    rw [getSet_addListener_same]
    by_cases hm : h ∈ getSet L u
    · simpa [hm] using hn u
    · simpa [hm, List.nodup_append] using hn u
  · rw [getSet_addListener_other L t u h hu]
    exact hn u

theorem foldl_addListener_nodup (regs : List (String × Nat)) :
    ∀ L : Listeners, (∀ v, (getSet L v).Nodup) →
      ∀ t, (getSet (regs.foldl (fun L r => addListener L r.1 r.2) L) t).Nodup := by
  induction regs with
  | nil => intro L hL t; simpa using hL t
  | cons r rs ih =>
    intro L hL t
    exact ih (addListener L r.1 r.2)
      (fun v => getSet_addListener_nodup L r.1 v r.2 hL) t

theorem buildListeners_nodup (regs : List (String × Nat)) (t : String) :
    (getSet (buildListeners regs) t).Nodup := by
  refine foldl_addListener_nodup regs [] (fun v => ?_) t
  simp [getSet]

theorem handleMessage_valid (L : Listeners) (ev : MessageEvent) (t : String)
    (ht : effectiveType ev.type = t) (htm : t ≠ "message")
    (hjson : isValidJson ev.data = true) :
    handleMessage L ev = getSet L t ++ getSet L "message" := by
  simp [handleMessage, hjson, ht, htm]

/-- C1: when a message with a valid JSON body and a specific (non-`"message"`)
event type is dispatched, a handler registered under exactly that type (and
not under the wildcard) is invoked exactly once, a handler registered under
the wildcard `"message"` (and not under the type) is invoked exactly once,
and a handler registered under neither — e.g. only under a different specific
type — is never invoked.  Registries are those produced by any sequence of
`on(type, handler)` calls. -/
theorem c1_dual_dispatch (regs : List (String × Nat)) (t : String) (h : Nat)
    (ev : MessageEvent) (ht : effectiveType ev.type = t)
    (htm : t ≠ "message") (hjson : isValidJson ev.data = true) :
    ((h ∈ getSet (buildListeners regs) t ∧
        h ∉ getSet (buildListeners regs) "message") →
      (handleMessage (buildListeners regs) ev).count h = 1) ∧
    ((h ∈ getSet (buildListeners regs) "message" ∧
        h ∉ getSet (buildListeners regs) t) →
      (handleMessage (buildListeners regs) ev).count h = 1) ∧
    ((h ∉ getSet (buildListeners regs) t ∧
        h ∉ getSet (buildListeners regs) "message") →
      (handleMessage (buildListeners regs) ev).count h = 0) := by
  rw [handleMessage_valid (buildListeners regs) ev t ht htm hjson]
  refine ⟨fun hc => ?_, fun hc => ?_, fun hc => ?_⟩
  · rw [List.count_append,
      List.count_eq_one_of_mem (buildListeners_nodup regs t) hc.1,
      List.count_eq_zero_of_not_mem hc.2]
  · rw [List.count_append,
      List.count_eq_one_of_mem (buildListeners_nodup regs "message") hc.1,
      List.count_eq_zero_of_not_mem hc.2]
  · rw [List.count_append,
      List.count_eq_zero_of_not_mem hc.1,
      List.count_eq_zero_of_not_mem hc.2]

/-- Witness for C1: handlers `1` under `"participant-updated"`, `2` under
`"message"`, `3` under `"room-renamed"`; a `participant-updated` message with
body `"1"` invokes `1` once, `2` once, `3` never. -/
theorem c1_dual_dispatch_witness :
    (handleMessage
        (buildListeners
          [("participant-updated", 1), ("message", 2), ("room-renamed", 3)])
        (MessageEvent.mk "participant-updated" "1" "")).count 1 = 1 ∧
    (handleMessage
        (buildListeners
          [("participant-updated", 1), ("message", 2), ("room-renamed", 3)])
        (MessageEvent.mk "participant-updated" "1" "")).count 2 = 1 ∧
    (handleMessage
        (buildListeners
          [("participant-updated", 1), ("message", 2), ("room-renamed", 3)])
        (MessageEvent.mk "participant-updated" "1" "")).count 3 = 0 := by
  refine ⟨?_, ?_, ?_⟩
  · exact (c1_dual_dispatch
      [("participant-updated", 1), ("message", 2), ("room-renamed", 3)]
      "participant-updated" 1 (MessageEvent.mk "participant-updated" "1" "")
      (by decide) (by decide) (by decide)).1 (by decide)
  · exact (c1_dual_dispatch
      [("participant-updated", 1), ("message", 2), ("room-renamed", 3)]
      "participant-updated" 2 (MessageEvent.mk "participant-updated" "1" "")
      (by decide) (by decide) (by decide)).2.1 (by decide)
  · exact (c1_dual_dispatch
      [("participant-updated", 1), ("message", 2), ("room-renamed", 3)]
      "participant-updated" 3 (MessageEvent.mk "participant-updated" "1" "")
      (by decide) (by decide) (by decide)).2.2 (by decide)

/-! ## Client state-machine lemmas -/

theorem addNativeListener_fields (s : SSEState) (t : String) :
    (addNativeListener s t).hasES = s.hasES ∧
    (addNativeListener s t).retryCount = s.retryCount ∧
    (addNativeListener s t).listeners = s.listeners := by
  unfold addNativeListener
  split <;> simp

theorem attachFold_fields (l : List (String × List Nat)) :
    ∀ s : SSEState,
      (l.foldl
        (fun acc p => if p.1 ≠ "message" then addNativeListener acc p.1
                      else acc) s).hasES = s.hasES ∧
      (l.foldl
        (fun acc p => if p.1 ≠ "message" then addNativeListener acc p.1
                      else acc) s).retryCount = s.retryCount ∧
      (l.foldl
        (fun acc p => if p.1 ≠ "message" then addNativeListener acc p.1
                      else acc) s).listeners = s.listeners := by
  induction l with
  | nil => intro s; exact ⟨rfl, rfl, rfl⟩
  | cons p rest ih =>
    intro s
    simp only [List.foldl_cons]
    obtain ⟨e1, e2, e3⟩ :=
      ih (if p.1 ≠ "message" then addNativeListener s p.1 else s)
    refine ⟨?_, ?_, ?_⟩
    · rw [e1]; split
      · exact (addNativeListener_fields _ _).1
      · rfl
    · rw [e2]; split
      · exact (addNativeListener_fields _ _).2.1
      · rfl
    · rw [e3]; split
      · exact (addNativeListener_fields _ _).2.2
      · rfl

theorem attachCustomListeners_fields (s : SSEState) :
    (attachCustomListeners s).hasES = s.hasES ∧
    (attachCustomListeners s).retryCount = s.retryCount ∧
    (attachCustomListeners s).listeners = s.listeners :=
  attachFold_fields s.listeners s

theorem connect_retryCount (s : SSEState) :
    (connect s).retryCount = s.retryCount := by
  unfold connect
  split
  · rfl
  · rw [(attachCustomListeners_fields _).2.1]

theorem connect_hasES (s : SSEState) : (connect s).hasES = true := by
  unfold connect
  split
  · assumption
  · rw [(attachCustomListeners_fields _).1]

theorem disconnect_retryCount (s : SSEState) :
    (disconnect s).retryCount = s.retryCount := by
  unfold disconnect
  split <;> rfl

theorem handleError_pos (o : ResolvedOptions) (s : SSEState)
    (hrec : o.reconnect = true)
    (hlt : s.retryCount < effectiveMaxRetries o) :
    handleError o s =
      ({ disconnect s with retryCount := s.retryCount + 1 }, true) := by
  unfold handleError
  rw [if_pos ⟨hrec, by rwa [disconnect_retryCount]⟩, disconnect_retryCount]

theorem handleError_neg (o : ResolvedOptions) (s : SSEState)
    (hge : ¬ s.retryCount < effectiveMaxRetries o) :
    handleError o s = (disconnect s, false) := by
  unfold handleError
  rw [if_neg]
  intro hc
  exact hge (by rw [disconnect_retryCount] at hc; exact hc.2)

theorem errorCycle_pos (o : ResolvedOptions) (s : SSEState)
    (hrec : o.reconnect = true)
    (hlt : s.retryCount < effectiveMaxRetries o) :
    (errorCycle o s).1.retryCount = s.retryCount + 1 ∧
    (errorCycle o s).2 = true := by
  unfold errorCycle
  rw [handleError_pos o s hrec hlt]
  simp [connect_retryCount]

theorem errorCycle_neg (o : ResolvedOptions) (s : SSEState)
    (hge : ¬ s.retryCount < effectiveMaxRetries o) :
    (errorCycle o s).1.retryCount = s.retryCount ∧
    (errorCycle o s).2 = false := by
  unfold errorCycle
  rw [handleError_neg o s hge]
  simp [disconnect_retryCount]

theorem runErrorCycles_min (o : ResolvedOptions) (hrec : o.reconnect = true)
    (s : SSEState) (hs : s.retryCount = 0) (n : Nat) :
    (runErrorCycles o s n).1.retryCount = min n (effectiveMaxRetries o) ∧
    (runErrorCycles o s n).2 = min n (effectiveMaxRetries o) := by
  induction n with
  | zero => simp [runErrorCycles, hs]
  | succ n ih =>
    obtain ⟨h1, h2⟩ := ih
    by_cases hlt : n < effectiveMaxRetries o
    · have hrc : (runErrorCycles o s n).1.retryCount < effectiveMaxRetries o := by
        rw [h1]; omega
      obtain ⟨e1, e2⟩ := errorCycle_pos o (runErrorCycles o s n).1 hrec hrc
      simp only [runErrorCycles]
      rw [e1, e2, h1, h2]
      constructor
      · omega
      · simp; omega
    · have hrc :
          ¬ (runErrorCycles o s n).1.retryCount < effectiveMaxRetries o := by
        rw [h1]; omega
      obtain ⟨e1, e2⟩ := errorCycle_neg o (runErrorCycles o s n).1 hrc
      simp only [runErrorCycles]
      rw [e1, e2, h1, h2]
      constructor
      · omega
      · simp; omega

/-- The fixed options used in claims C2/C9's scenarios. -/
def optsMax5 : ResolvedOptions :=
  resolveOptions (SSEClientOptions.mk (some true) none (some 5))

/-- A freshly constructed client (any pre-registered listeners) after its
first `connect()`. -/
def freshConnected (L : Listeners) : SSEState :=
  connect (SSEState.mk false 0 L [])

theorem freshConnected_retryCount (L : Listeners) :
    (freshConnected L).retryCount = 0 := by
  unfold freshConnected
  rw [connect_retryCount]

/-- C2 (amended): with reconnect enabled and `maxRetries = 5`, each transport
error while retries remain increments the retry counter (after `n`
consecutive errors it reads `min n 5`, staying at the ceiling thereafter);
exactly `min n 5` reconnection attempts are scheduled over `n` consecutive
errors — never more than 5; once 5 errors have occurred every further error
schedules no reconnection attempt (terminal given-up state); and the counter
is reset to zero by no operation other than the open callback (error
handling never decreases it, `connect`/`disconnect` preserve it,
`openCallback` zeroes it). -/
theorem c2_retry_ceiling (L : Listeners) (n : Nat) (s : SSEState) :
    (runErrorCycles optsMax5 (freshConnected L) n).1.retryCount = min n 5 ∧
    (runErrorCycles optsMax5 (freshConnected L) n).2 = min n 5 ∧
    (errorCycle optsMax5 (runErrorCycles optsMax5 (freshConnected L) (5 + n)).1).2
      = false ∧
    s.retryCount ≤ (handleError optsMax5 s).1.retryCount ∧
    (connect s).retryCount = s.retryCount ∧
    (disconnect s).retryCount = s.retryCount ∧
    (openCallback s).retryCount = 0 := by
  have hcap : effectiveMaxRetries optsMax5 = 5 := by decide
  have hrec : optsMax5.reconnect = true := by decide
  have hmin := runErrorCycles_min optsMax5 hrec (freshConnected L)
    (freshConnected_retryCount L)
  refine ⟨?_, ?_, ?_, ?_, connect_retryCount s, disconnect_retryCount s, rfl⟩
  · rw [(hmin n).1, hcap]
  · rw [(hmin n).2, hcap]
  · refine (errorCycle_neg optsMax5 _ ?_).2
    rw [(hmin (5 + n)).1, hcap]
    omega
  · unfold handleError
    split
    · simp [disconnect_retryCount]
    · simp [disconnect_retryCount]

/-- Counterexample to C2 as stated: were the retry counter incremented on
each of 6 consecutive transport errors it would read 6; the code leaves it at
5 (the 6th error skips the increment and gives up). -/
theorem c2_counterexample :
    (runErrorCycles optsMax5 (freshConnected []) 6).1.retryCount = 5 ∧
    ¬ (runErrorCycles optsMax5 (freshConnected []) 6).1.retryCount = 6 := by
  decide

/-- C9: constructed with `maxRetries: 0` and reconnect enabled, the resolved
option is `0`, but the ceiling actually compared against is
`maxRetries || 5 = 5` (JavaScript treats the explicit `0` as falsy): the
first transport error still schedules a reconnection attempt rather than
giving up immediately, and `n` consecutive errors schedule `min n 5`
attempts — the default ceiling of 5. -/
theorem c9_explicit_zero_retries (L : Listeners) (n : Nat) :
    (resolveOptions (SSEClientOptions.mk (some true) none (some 0))).maxRetries
      = 0 ∧
    effectiveMaxRetries
      (resolveOptions (SSEClientOptions.mk (some true) none (some 0))) = 5 ∧
    (errorCycle (resolveOptions (SSEClientOptions.mk (some true) none (some 0)))
        (freshConnected L)).2 = true ∧
    (runErrorCycles
        (resolveOptions (SSEClientOptions.mk (some true) none (some 0)))
        (freshConnected L) n).2 = min n 5 := by
  refine ⟨rfl, by decide, ?_, ?_⟩
  · refine (errorCycle_pos _ _ (by decide) ?_).2
    rw [freshConnected_retryCount]
    decide
  · have hmin := runErrorCycles_min
      (resolveOptions (SSEClientOptions.mk (some true) none (some 0)))
      (by decide) (freshConnected L) (freshConnected_retryCount L) n
    rw [hmin.2]
    norm_num [effectiveMaxRetries, resolveOptions]

/-- C3: a message whose data body is not valid JSON invokes zero handlers and
leaves the whole client state (transport flag, retry counter, listener
registry, native handlers) untouched, and a subsequent message with a valid
JSON body on the same connection is dispatched correctly — its typed
listeners followed by the wildcard listeners, exactly as if the malformed
message had never arrived. -/
theorem c3_malformed_nonfatal (s : SSEState) (bad good : MessageEvent)
    (t : String) (hbad : isValidJson bad.data = false)
    (ht : effectiveType good.type = t) (htm : t ≠ "message")
    (hgood : isValidJson good.data = true) :
    (handleMessageState s bad).2 = [] ∧
    (handleMessageState s bad).1 = s ∧
    handleMessageState (handleMessageState s bad).1 good =
      handleMessageState s good ∧
    (handleMessageState (handleMessageState s bad).1 good).2 =
      getSet s.listeners t ++ getSet s.listeners "message" := by
  refine ⟨?_, rfl, rfl, ?_⟩
  · simp [handleMessageState, handleMessage, hbad]
  · exact handleMessage_valid s.listeners good t ht htm hgood

/-- Witness for C3: with handler `1` on `"participant-updated"` and `2` on
the wildcard, the body `"not json"` invokes nobody and changes nothing, and
a following valid `"participant-updated"` message invokes `1` then `2`. -/
theorem c3_malformed_nonfatal_witness :
    (handleMessageState
        (SSEState.mk true 0 [("participant-updated", [1]), ("message", [2])]
          ["participant-updated"])
        (MessageEvent.mk "participant-updated" "not json" "")).2 = [] ∧
    (handleMessageState
        (SSEState.mk true 0 [("participant-updated", [1]), ("message", [2])]
          ["participant-updated"])
        (MessageEvent.mk "participant-updated" "not json" "")).1 =
      SSEState.mk true 0 [("participant-updated", [1]), ("message", [2])]
        ["participant-updated"] ∧
    (handleMessageState
        (handleMessageState
          (SSEState.mk true 0 [("participant-updated", [1]), ("message", [2])]
            ["participant-updated"])
          (MessageEvent.mk "participant-updated" "not json" "")).1
        (MessageEvent.mk "participant-updated" "1" "")).2 = [1, 2] := by
  have H := c3_malformed_nonfatal
    (SSEState.mk true 0 [("participant-updated", [1]), ("message", [2])]
      ["participant-updated"])
    (MessageEvent.mk "participant-updated" "not json" "")
    (MessageEvent.mk "participant-updated" "1" "")
    "participant-updated" (by decide) (by decide) (by decide) (by decide)
  exact ⟨H.1, H.2.1, by rw [H.2.2.2]; decide⟩

/-- Counterexample to C4 as stated: `disconnect()` does not clear the retry
counter — from a connected state with `retryCount = 3`, disconnecting tears
the transport down but leaves the counter at 3, not 0. -/
theorem c4_counterexample :
    (disconnect (SSEState.mk true 3 [] [])).hasES = false ∧
    ¬ (disconnect (SSEState.mk true 3 [] [])).retryCount = 0 := by
  decide

/-- C4 (amended): after every `disconnect()` the transport handle is torn
down — closed and nulled, so `isConnected()` is false whatever the
underlying ready state, and no further events are dispatched — while the
retry counter is left unchanged (it is reset to zero only by a subsequent
successful open), and the listener registry is kept. -/
theorem c4_disconnect_teardown (s : SSEState) (readyOpen : Bool) :
    (disconnect s).hasES = false ∧
    isConnected (disconnect s) readyOpen = false ∧
    (disconnect s).retryCount = s.retryCount ∧
    (disconnect s).listeners = s.listeners := by
  unfold disconnect isConnected
  cases hE : s.hasES <;> simp [hE]

theorem connect_of_hasES (s : SSEState) (h : s.hasES = true) :
    connect s = s := by
  unfold connect
  rw [if_pos h]

/-- C5: `connect()` is idempotent — whenever a transport already exists it is
a no-op, returning the state unchanged (transport, retry counter and listener
registry included), and `connect()` composed with itself always equals a
single `connect()`. -/
theorem c5_connect_idempotent (s : SSEState) (h : s.hasES = true) :
    connect s = s ∧ ∀ s2 : SSEState, connect (connect s2) = connect s2 :=
  ⟨connect_of_hasES s h, fun s2 => connect_of_hasES _ (connect_hasES s2)⟩

/-- Witness for C5: a connected client with one registered listener is left
exactly as it is by a second `connect()`. -/
theorem c5_connect_idempotent_witness :
    connect (SSEState.mk true 2 [("message", [5])] []) =
      SSEState.mk true 2 [("message", [5])] [] :=
  (c5_connect_idempotent (SSEState.mk true 2 [("message", [5])] []) rfl).1

/-! ## Lemmas for repeated registration (C10) -/

theorem addListener_mem (L : Listeners) (t : String) (h : Nat) :
    h ∈ getSet (addListener L t h) t := by
  rw [getSet_addListener_same]
  split
  · assumption
  · simp

theorem addListener_idem (L : Listeners) (t : String) (h : Nat) :
    addListener (addListener L t h) t h = addListener L t h := by
  induction L with
  | nil => simp [addListener]
  | cons p rest ih =>
    obtain ⟨t', hs⟩ := p
    by_cases ht : t' = t
    · subst ht
      by_cases hm : h ∈ hs
      · simp [addListener, hm]
      · simp [addListener, hm]
    · simp [addListener, ht, ih]

theorem addNativeListener_mem (s : SSEState) (t : String)
    (h : s.hasES = true) : t ∈ (addNativeListener s t).nativeTypes := by
  unfold addNativeListener
  by_cases hm : t ∈ s.nativeTypes
  · simp [hm, h]
  · simp [hm, h]

theorem addNativeListener_of_mem (s : SSEState) (t : String)
    (hm : t ∈ s.nativeTypes) : addNativeListener s t = s := by
  unfold addNativeListener
  rw [if_pos (by simp [hm])]

theorem SSEState_eq_of_fields {x y : SSEState} (h1 : x.hasES = y.hasES)
    (h2 : x.retryCount = y.retryCount) (h3 : x.listeners = y.listeners)
    (h4 : x.nativeTypes = y.nativeTypes) : x = y := by
  cases x
  cases y
  simp_all

theorem onEvent_hasES (s : SSEState) (t : String) (h : Nat) :
    (onEvent s t h).hasES = s.hasES := by
  unfold onEvent
  split
  · rw [(addNativeListener_fields _ _).1]
  · rfl

theorem onEvent_retryCount (s : SSEState) (t : String) (h : Nat) :
    (onEvent s t h).retryCount = s.retryCount := by
  unfold onEvent
  split
  · rw [(addNativeListener_fields _ _).2.1]
  · rfl

theorem onEvent_listeners (s : SSEState) (t : String) (h : Nat) :
    (onEvent s t h).listeners = addListener s.listeners t h := by
  unfold onEvent
  split
  · rw [(addNativeListener_fields _ _).2.2]
  · rfl

theorem onEvent_nativeTypes (s : SSEState) (t : String) (h : Nat) :
    (onEvent s t h).nativeTypes =
      if s.hasES = true ∧ ¬ t = "message" ∧ ¬ t ∈ s.nativeTypes
      then s.nativeTypes ++ [t] else s.nativeTypes := by
  unfold onEvent addNativeListener
  by_cases h1 : s.hasES = true
  · by_cases h2 : t = "message"
    · simp [h1, h2]
    · by_cases h3 : t ∈ s.nativeTypes
      · simp [h1, h2, h3]
      · simp [h1, h2, h3]
  · simp [h1]

theorem onEvent_idem (s : SSEState) (t : String) (h : Nat) :
    onEvent (onEvent s t h) t h = onEvent s t h := by
  refine SSEState_eq_of_fields ?_ ?_ ?_ ?_
  · rw [onEvent_hasES]
  · rw [onEvent_retryCount]
  · rw [onEvent_listeners, onEvent_listeners]
    exact addListener_idem s.listeners t h
  · rw [onEvent_nativeTypes, onEvent_nativeTypes s t h, onEvent_hasES]
    by_cases h1 : s.hasES = true
    · by_cases h2 : t = "message"
      · simp [h2]
      · by_cases h3 : t ∈ s.nativeTypes
        · simp [h1, h2, h3]
        · simp [h1, h2, h3]
    · simp [h1]

/-- C10: registering the same callback twice under the same event type is
idempotent — the second `on(t, h)` call leaves the whole client state (the
handler set included) exactly as after the first — and a handler registered
twice under a specific type is still invoked exactly once per matching
dispatched message (provided it is not also registered under the wildcard,
which would fire it additionally in its wildcard role). -/
theorem c10_double_registration (regs : List (String × Nat)) (t : String)
    (h : Nat) (ev : MessageEvent) (ht : effectiveType ev.type = t)
    (htm : t ≠ "message") (hjson : isValidJson ev.data = true)
    (hw : ¬ h ∈ getSet (buildListeners regs) "message") :
    (∀ (s : SSEState) (t2 : String) (h2 : Nat),
      onEvent (onEvent s t2 h2) t2 h2 = onEvent s t2 h2) ∧
    (handleMessage (addListener (addListener (buildListeners regs) t h) t h)
        ev).count h = 1 := by
  refine ⟨fun s t2 h2 => onEvent_idem s t2 h2, ?_⟩
  rw [addListener_idem,
    handleMessage_valid _ ev t ht htm hjson, List.count_append,
    List.count_eq_one_of_mem
      (getSet_addListener_nodup (buildListeners regs) t t h
        (fun v => buildListeners_nodup regs v))
      (addListener_mem (buildListeners regs) t h),
    List.count_eq_zero_of_not_mem (by
      rw [getSet_addListener_other (buildListeners regs) t "message" h
        (fun e => htm e.symm)]
      exact hw)]

/-- Witness for C10: handler `7` registered twice under `"room-renamed"` on a
fresh client fires exactly once for a `room-renamed` message. -/
theorem c10_double_registration_witness :
    (handleMessage
        (addListener (addListener (buildListeners []) "room-renamed" 7)
          "room-renamed" 7)
        (MessageEvent.mk "room-renamed" "1" "")).count 7 = 1 :=
  (c10_double_registration [] "room-renamed" 7
    (MessageEvent.mk "room-renamed" "1" "") (by decide) (by decide)
    (by decide) (by decide)).2

/-- C6: for every row-level mutation on either tracked table, the trigger
payload contains the full-row snapshot key `'data'` iff the operation is not
a delete — INSERT and UPDATE payloads always carry it, DELETE payloads never
do — and every payload carries the operation tag, the table tag, the row id
and the timestamp. -/
theorem c6_snapshot_iff_not_delete (op : TgOp) (tbl : String)
    (oldE newE : PgRow) (oldP newP : PgParticipantRow) (now : Nat) :
    (("data" ∈ payloadKeys (notify_event_changes op tbl oldE newE now).2) ↔
      ¬ op = TgOp.deleteOp) ∧
    "operation" ∈ payloadKeys (notify_event_changes op tbl oldE newE now).2 ∧
    "table" ∈ payloadKeys (notify_event_changes op tbl oldE newE now).2 ∧
    "id" ∈ payloadKeys (notify_event_changes op tbl oldE newE now).2 ∧
    "timestamp" ∈ payloadKeys (notify_event_changes op tbl oldE newE now).2 ∧
    (("data" ∈
        payloadKeys (notify_participant_changes op tbl oldP newP now).2) ↔
      ¬ op = TgOp.deleteOp) ∧
    "operation" ∈
      payloadKeys (notify_participant_changes op tbl oldP newP now).2 ∧
    "table" ∈
      payloadKeys (notify_participant_changes op tbl oldP newP now).2 ∧
    "id" ∈ payloadKeys (notify_participant_changes op tbl oldP newP now).2 ∧
    "timestamp" ∈
      payloadKeys (notify_participant_changes op tbl oldP newP now).2 := by
  cases op <;>
    simp [notify_event_changes, notify_participant_changes, payloadKeys]

/-- C7: for every message received and successfully parsed by the client set
up by `useEventSSE` — whatever its event type — the hook's single wildcard
handler is invoked exactly once, and that handler invalidates the entire
cached view of both entity collections: afterwards every cached query whose
key lies under `queryKeys.events.all` or `queryKeys.participants.all` is
stale (a full refetch, not an incremental patch of the one entity named in
the message). -/
theorem c7_invalidate_on_any_message (ev : MessageEvent) (c : QueryCache)
    (hjson : isValidJson ev.data = true) :
    (handleMessage hookClientState.listeners ev).count hookHandlerId = 1 ∧
    ∀ e ∈ hookOnMessage c,
      keyExtends queryKeysEventsAll e.key = true ∨
      keyExtends queryKeysParticipantsAll e.key = true → e.stale = true := by
  constructor
  · have hL : hookClientState.listeners = [("message", [hookHandlerId])] := by
      decide
    rw [hL]
    unfold handleMessage
    rw [if_pos hjson]
    by_cases htm : effectiveType ev.type = "message"
    · simp [htm, getSet]
    · simp [htm, getSet, Ne.symm htm]
  · intro e he hk
    simp only [hookOnMessage, invalidateQueries, List.map_map] at he
    rcases List.mem_map.1 he with ⟨x, hx, rfl⟩
    by_cases k1 : keyExtends queryKeysEventsAll x.key = true
    · by_cases k2 : keyExtends queryKeysParticipantsAll x.key = true <;>
        simp [Function.comp, k1, k2]
    · by_cases k2 : keyExtends queryKeysParticipantsAll x.key = true
      · simp [Function.comp, k1, k2]
      · simp [Function.comp, k1, k2] at hk

/-- Witness for C7: a typed `participant-updated` message with a valid body
fires the hook handler once, and both an events-list query and a
participants-by-event query end up stale. -/
theorem c7_invalidate_on_any_message_witness :
    (handleMessage hookClientState.listeners
        (MessageEvent.mk "participant-updated" "1" "")).count hookHandlerId
      = 1 ∧
    ∀ e ∈ hookOnMessage
        [CacheEntry.mk ["events", "list"] false,
         CacheEntry.mk ["participants", "list", "e1"] false],
      keyExtends queryKeysEventsAll e.key = true ∨
      keyExtends queryKeysParticipantsAll e.key = true → e.stale = true :=
  c7_invalidate_on_any_message (MessageEvent.mk "participant-updated" "1" "")
    [CacheEntry.mk ["events", "list"] false,
     CacheEntry.mk ["participants", "list", "e1"] false] (by decide)

/-! ## Hub fan-out lemmas (C8) -/

theorem find_pub_aux (cap : Nat) (e : ChangeEvent) (k : Nat) :
    ∀ (reg : List (Nat × List ChangeEvent)) (q : List ChangeEvent),
      ((reg.find? (fun p => p.1 = k)).map Prod.snd = some q) →
      q.length < cap →
      (((reg.filterMap
            (fun p => if p.2.length < cap then some (p.1, p.2 ++ [e])
                      else none)).find?
          (fun p => p.1 = k)).map Prod.snd) = some (q ++ [e]) := by
  intro reg
  induction reg with
  | nil => intro q hq _; simp at hq
  | cons p rest ih =>
    intro q hq hlt
    by_cases hk : p.1 = k
    · rw [List.find?_cons_of_pos _ (by simp [hk])] at hq
      simp only [Option.map_some', Option.some.injEq] at hq
      rw [List.filterMap_cons,
        show (if p.2.length < cap then some (p.1, p.2 ++ [e]) else none) =
          some (p.1, p.2 ++ [e]) from if_pos (by rw [hq]; exact hlt)]
      rw [List.find?_cons_of_pos _ (by simp [hk])]
      simp [hq]
    · rw [List.find?_cons_of_neg _ (by simp [hk])] at hq
      rw [List.filterMap_cons]
      by_cases hfull : p.2.length < cap
      · rw [if_pos hfull, List.find?_cons_of_neg _ (by simp [hk])]
        exact ih q hq hlt
      · rw [if_neg hfull]
        exact ih q hq hlt

theorem publish_getQueue (hub : Hub) (k : Nat) (q : List ChangeEvent)
    (e : ChangeEvent) (hq : hub.getQueue k = some q)
    (hlt : q.length < hub.capacity) :
    (hub.publish e).getQueue k = some (q ++ [e]) := by
  unfold Hub.getQueue at hq ⊢
  unfold Hub.publish
  exact find_pub_aux hub.capacity e k hub.registry q hq hlt

/-- C8: for every sequence of `Publish` calls on the Broadcast Hub, a
registered subscriber whose bounded queue never overflows during the
sequence ends up with exactly the published events appended to its queue in
publish order — no loss, no reordering, no duplication; draining the queue
front-first (per-subscriber FIFO) therefore delivers them in publish order.
The Hub here is modelled from the spec (§4.2), its server source not being
part of the repository tree. -/
theorem c8_publish_fifo (hub : Hub) (k : Nat) (q0 : List ChangeEvent)
    (es : List ChangeEvent) (hq : hub.getQueue k = some q0)
    (hcap : q0.length + es.length ≤ hub.capacity) :
    (hub.publishAll es).getQueue k = some (q0 ++ es) := by
  induction es generalizing hub q0 with
  | nil => simpa [Hub.publishAll] using hq
  | cons e rest ih =>
    have hlt : q0.length < hub.capacity := by
      simp only [List.length_cons] at hcap
      omega
    have h1 : (hub.publish e).getQueue k = some (q0 ++ [e]) :=
      publish_getQueue hub k q0 e hq hlt
    have hcap2 : (q0 ++ [e]).length + rest.length ≤ (hub.publish e).capacity := by
      have : (hub.publish e).capacity = hub.capacity := rfl
      rw [this, List.length_append]
      simp only [List.length_cons] at hcap
      simp
      omega
    have h2 := ih (hub.publish e) (q0 ++ [e]) h1 hcap2
    rw [Hub.publishAll, List.foldl_cons]
    rw [Hub.publishAll] at h2
    rw [h2, List.append_assoc]
    rfl

/-- Witness for C8: a hub with capacity 64 and one empty-queue subscriber
(handle 1) receives two published events in order. -/
theorem c8_publish_fifo_witness :
    ((Hub.mk 64 [(1, [])] 2).publishAll
        [ChangeEvent.mk "Created" "PrimaryRecord" "e1" none
           (some [("title", "a")]) 1,
         ChangeEvent.mk "Deleted" "DependentRecord" "p1" (some "e1") none 2]
      ).getQueue 1 =
      some
        [ChangeEvent.mk "Created" "PrimaryRecord" "e1" none
           (some [("title", "a")]) 1,
         ChangeEvent.mk "Deleted" "DependentRecord" "p1" (some "e1") none 2] :=
  c8_publish_fifo (Hub.mk 64 [(1, [])] 2) 1 []
    [ChangeEvent.mk "Created" "PrimaryRecord" "e1" none
       (some [("title", "a")]) 1,
     ChangeEvent.mk "Deleted" "DependentRecord" "p1" (some "e1") none 2]
    (by decide) (by decide)

end Relay
